import Mathlib

/-!
  Shallow embedding of the YABE C encoding/decoding engine
  (Sources/YABE_C/yabe.h and Sources/YABE_C/yabe.c).

  Memory is a byte-addressed map `Nat → Nat`; every stored byte is reduced
  mod 256 (a C `char`).  A cursor is the pair `(pos, len)` mirroring the
  `(ptr, len)` fields of `yabe_cursor_t`, with `pos` the offset of `ptr`
  from the buffer start.  Writers return `(count, mem, cursor)`, readers
  return `(count, cursor)` or `(count, cursor, out)` where `out` is the
  value stored through the out pointer (the function receives the previous
  contents of that location, so frame effects are observable).

  C bit operations on contiguous bit fields are translated to division /
  modulus / multiplication by powers of two; each definition carries a
  comment with the original C expression.  `double` values are represented
  by their IEEE-754 bit patterns (the source itself immediately reinterprets
  the argument as an `int64_t` bit pattern).  Signed integer values are
  `Int`, with two's-complement byte patterns computed by `% 2^w`.
-/

namespace Yabe

abbrev Mem : Type := Nat → Nat

structure Cursor where
  pos : Nat
  len : Nat
deriving DecidableEq

/-- Interpret a byte as a signed `int8_t` value. -/
def toInt8 (b : Nat) : Int :=
  if b % 256 < 128 then ((b % 256 : Nat) : Int) else ((b % 256 : Nat) : Int) - 256

/-- Two's-complement interpretation of an unsigned pattern `p` modulo `M`
    (used for the little-endian signed payload loads `*((int16_t*)ptr)`,
    `*((int32_t*)ptr)`, `*((int64_t*)ptr)`). -/
def toSigned (p M : Nat) : Int :=
  if p < M / 2 then (p : Nat) else ((p : Nat) : Int) - M

/-- C bitwise `&` of two `int8_t` values (via their byte patterns). -/
def int8_and (a b : Int) : Int :=
  toInt8 (((a % 256).toNat) &&& ((b % 256).toNat))

/-- Store one byte (a C `char`) at address `p`. -/
def writeByte (m : Mem) (p : Nat) (v : Nat) : Mem :=
  fun i => if i = p then v % 256 else m i

/-- `yabe_poke_int8`: store the low byte of a signed value. -/
def poke_int8 (m : Mem) (p : Nat) (v : Int) : Mem :=
  writeByte m p (v % 256).toNat

/-- Little-endian store of the low `n` bytes of pattern `v` at `p`
    (`yabe_poke_int16` / `_int32` / `_int64` / `_uint16` / `_uint32` /
    `_uint64` on a little-endian host). -/
def pokeLE : Mem → Nat → Nat → Nat → Mem
  | m, _, 0, _ => m
  | m, p, n+1, v => pokeLE (writeByte m p v) (p+1) n (v / 256)

/-- Little-endian load of `n` bytes at `p` as an unsigned pattern. -/
def peekLE (m : Mem) : Nat → Nat → Nat
  | _, 0 => 0
  | p, n+1 => m p % 256 + 256 * peekLE m (p+1) n

/- Tag codes, as the `int8_t` values of yabe.h. -/
def yabe_str6_tag : Int := -128
def yabe_null_tag : Int := -64
def yabe_int16_tag : Int := -63
def yabe_int32_tag : Int := -62
def yabe_int64_tag : Int := -61
def yabe_flt0_tag : Int := -60
def yabe_flt16_tag : Int := -59
def yabe_flt32_tag : Int := -58
def yabe_flt64_tag : Int := -57
def yabe_true_tag : Int := -56
def yabe_false_tag : Int := -55
def yabe_blob_tag : Int := -54
def yabe_ends_tag : Int := -53
def yabe_none_tag : Int := -52
def yabe_str16_tag : Int := -51
def yabe_str32_tag : Int := -50
def yabe_str64_tag : Int := -49
def yabe_sarray_tag : Int := -48
def yabe_arrays_tag : Int := -41
def yabe_sobject_tag : Int := -40
def yabe_objects_tag : Int := -33

/-- `yabe_end_of_buffer`. -/
def yabe_end_of_buffer (c : Cursor) : Bool := c.len = 0

/-- `yabe_peek_tag` (returned through `uint8_t` and stored back into an
    `int8_t 'tag'` at every call site, so the net value is the signed byte). -/
def yabe_peek_tag (m : Mem) (c : Cursor) : Int := toInt8 (m c.pos)

/-- `yabe_skip_tag`. Requires `1 ≤ c.len` (asserted in the source). -/
def yabe_skip_tag (c : Cursor) : Nat × Cursor := (1, ⟨c.pos + 1, c.len - 1⟩)

/-- `yabe_skip_tag_if_is` (yabe.h lines 622-623).  Here the `uint8_t`
    result of `yabe_peek_tag` is compared DIRECTLY against the `int8_t tag`
    parameter — there is no intermediate `int8_t` variable as at the other
    call sites.  After the usual arithmetic conversions this compares an
    unsigned 0..255 value with a sign-extended int, so for every negative
    tag constant the comparison can never succeed and the function returns
    0 on every byte. -/
def yabe_skip_tag_if_is (m : Mem) (c : Cursor) (tag : Int) : Nat × Cursor :=
  if ((m c.pos % 256 : Nat) : Int) = tag then yabe_skip_tag c else (0, c)

/-- `yabe_write_tag`. -/
def yabe_write_tag (m : Mem) (c : Cursor) (tag : Int) : Nat × Mem × Cursor :=
  if c.len = 0 then (0, m, c)
  else (1, poke_int8 m c.pos tag, ⟨c.pos + 1, c.len - 1⟩)

/-- `yabe_write_none`. -/
def yabe_write_none (m : Mem) (c : Cursor) : Nat × Mem × Cursor :=
  yabe_write_tag m c yabe_none_tag

/-- `yabe_write_null`. -/
def yabe_write_null (m : Mem) (c : Cursor) : Nat × Mem × Cursor :=
  yabe_write_tag m c yabe_null_tag

/-- `yabe_write_bool`. -/
def yabe_write_bool (m : Mem) (c : Cursor) (value : Bool) : Nat × Mem × Cursor :=
  yabe_write_tag m c (if value then yabe_true_tag else yabe_false_tag)

/-- `yabe_write_blob`. -/
def yabe_write_blob (m : Mem) (c : Cursor) : Nat × Mem × Cursor :=
  yabe_write_tag m c yabe_blob_tag

/-- `yabe_write_small_array`.  `yabe_sarray_tag|nbr` equals
    `yabe_sarray_tag + nbr` because the guarded `nbr ≤ 6` occupies only the
    three zero low bits of the tag. -/
def yabe_write_small_array (m : Mem) (c : Cursor) (nbr : Nat) : Nat × Mem × Cursor :=
  if 6 < nbr then (0, m, c) else yabe_write_tag m c (yabe_sarray_tag + nbr)

/-- `yabe_write_array_stream`. -/
def yabe_write_array_stream (m : Mem) (c : Cursor) : Nat × Mem × Cursor :=
  yabe_write_tag m c yabe_arrays_tag

/-- `yabe_write_small_object` (same packing as `yabe_write_small_array`). -/
def yabe_write_small_object (m : Mem) (c : Cursor) (nbr : Nat) : Nat × Mem × Cursor :=
  if 6 < nbr then (0, m, c) else yabe_write_tag m c (yabe_sobject_tag + nbr)

/-- `yabe_write_object_stream`. -/
def yabe_write_object_stream (m : Mem) (c : Cursor) : Nat × Mem × Cursor :=
  yabe_write_tag m c yabe_objects_tag

/-- `yabe_write_end_stream`. -/
def yabe_write_end_stream (m : Mem) (c : Cursor) : Nat × Mem × Cursor :=
  yabe_write_tag m c yabe_ends_tag

/-- `yabe_write_integer` (yabe.c lines 29-66).  Note the packed branch
    returns 1 — not 0 — when `cursor->len == 0`, exactly as the source does. -/
def yabe_write_integer (m : Mem) (c : Cursor) (val : Int) : Nat × Mem × Cursor :=
  if -32 ≤ val ∧ val ≤ 127 then
    if c.len = 0 then (1, m, c)
    else (1, poke_int8 m c.pos val, ⟨c.pos + 1, c.len - 1⟩)
  else if -32768 ≤ val ∧ val ≤ 32767 then
    if c.len < 3 then (0, m, c)
    else (3, pokeLE (poke_int8 m c.pos yabe_int16_tag) (c.pos + 1) 2 (val % 2 ^ 16).toNat,
          ⟨c.pos + 3, c.len - 3⟩)
  else if -2147483648 ≤ val ∧ val ≤ 2147483647 then
    if c.len < 5 then (0, m, c)
    else (5, pokeLE (poke_int8 m c.pos yabe_int32_tag) (c.pos + 1) 4 (val % 2 ^ 32).toNat,
          ⟨c.pos + 5, c.len - 5⟩)
  else
    if c.len < 9 then (0, m, c)
    else (9, pokeLE (poke_int8 m c.pos yabe_int64_tag) (c.pos + 1) 8 (val % 2 ^ 64).toNat,
          ⟨c.pos + 9, c.len - 9⟩)

/-- `yabe_write_float` (yabe.c lines 70-179).  `dr` is the IEEE-754 bit
    pattern of the `double` argument — the source reinterprets the argument
    as `int64_t dr` up front and works on bits only.  Field translations:
    `dr & 0x7FFFFFFFFFFFFFFF` = `dr % 2^63`; `de == EXPONENT_BITS` =
    `dr / 2^52 % 2^11 = 2047`; `dr & 0xFFFFFFFFFFFFF` = `dr % 2^52`;
    `dr < 0` = `dr / 2^63 % 2 = 1`; `he = (de>>52) - 1023`;
    `dr & 0x3FFFFFFFFFF` = `dr % 2^42`; `((dr>>42)&0x3FF)` = `dr / 2^42 % 2^10`;
    `dr & 0x1FFFFFFF` = `dr % 2^29`; `((dr>>29)&0x7FFFFF)` = `dr / 2^29 % 2^23`;
    the `|` assemblies of hr / fr combine disjoint fields, hence `+`. -/
def yabe_write_float (m : Mem) (c : Cursor) (dr : Nat) : Nat × Mem × Cursor :=
  if dr % 2 ^ 63 = 0 then
    if c.len < 1 then (0, m, c)
    else (1, poke_int8 m c.pos yabe_flt0_tag, ⟨c.pos + 1, c.len - 1⟩)
  else if dr / 2 ^ 52 % 2 ^ 11 = 2047 then
    if c.len < 3 then (0, m, c)
    else
      (3, pokeLE (poke_int8 m c.pos yabe_flt16_tag) (c.pos + 1) 2
            (if dr % 2 ^ 52 ≠ 0 then 0x7D00
             else if dr / 2 ^ 63 % 2 = 1 then 0xFC00
             else 0x7C00),
       ⟨c.pos + 3, c.len - 3⟩)
  else if -14 ≤ ((dr / 2 ^ 52 % 2 ^ 11 : Nat) : Int) - 1023 ∧
          ((dr / 2 ^ 52 % 2 ^ 11 : Nat) : Int) - 1023 ≤ 15 ∧ dr % 2 ^ 42 = 0 then
    if c.len < 3 then (0, m, c)
    else
      (3, pokeLE (poke_int8 m c.pos yabe_flt16_tag) (c.pos + 1) 2
            ((((dr / 2 ^ 52 % 2 ^ 11 : Nat) : Int) - 1023 + 15).toNat * 2 ^ 10
              + (if dr / 2 ^ 63 % 2 = 1 then 2 ^ 15 else 0)
              + dr / 2 ^ 42 % 2 ^ 10),
       ⟨c.pos + 3, c.len - 3⟩)
  else if -126 ≤ ((dr / 2 ^ 52 % 2 ^ 11 : Nat) : Int) - 1023 ∧
          ((dr / 2 ^ 52 % 2 ^ 11 : Nat) : Int) - 1023 ≤ 127 ∧ dr % 2 ^ 29 = 0 then
    if c.len < 5 then (0, m, c)
    else
      (5, pokeLE (poke_int8 m c.pos yabe_flt32_tag) (c.pos + 1) 4
            ((((dr / 2 ^ 52 % 2 ^ 11 : Nat) : Int) - 1023 + 127).toNat * 2 ^ 23
              + (if dr / 2 ^ 63 % 2 = 1 then 2 ^ 31 else 0)
              + dr / 2 ^ 29 % 2 ^ 23),
       ⟨c.pos + 5, c.len - 5⟩)
  else
    if c.len < 9 then (0, m, c)
    else (9, pokeLE (poke_int8 m c.pos yabe_flt64_tag) (c.pos + 1) 8 dr,
          ⟨c.pos + 9, c.len - 9⟩)

/-- `yabe_write_string` (yabe.c lines 183-224).  The `< 2^32` and final
    branches poke `yabe_str16_tag`, not `yabe_str32_tag` / `yabe_str64_tag`,
    exactly as the source does.  The str6 branch pokes
    `yabe_str6_tag | (uint8_t)strLen`, which is `yabe_str6_tag + strLen`
    since `strLen < 64` sits in the zero low bits of the tag. -/
def yabe_write_string (m : Mem) (c : Cursor) (strLen : Nat) : Nat × Mem × Cursor :=
  if strLen < 64 then
    if c.len < 1 then (0, m, c)
    else (1, poke_int8 m c.pos (yabe_str6_tag + strLen), ⟨c.pos + 1, c.len - 1⟩)
  else if strLen < 65536 then
    if c.len < 3 then (0, m, c)
    else (3, pokeLE (poke_int8 m c.pos yabe_str16_tag) (c.pos + 1) 2 strLen,
          ⟨c.pos + 3, c.len - 3⟩)
  else if strLen < 2 ^ 32 then
    if c.len < 5 then (0, m, c)
    else (5, pokeLE (poke_int8 m c.pos yabe_str16_tag) (c.pos + 1) 4 strLen,
          ⟨c.pos + 5, c.len - 5⟩)
  else
    if c.len < 9 then (0, m, c)
    else (9, pokeLE (poke_int8 m c.pos yabe_str16_tag) (c.pos + 1) 8 strLen,
          ⟨c.pos + 9, c.len - 9⟩)

/-- Copy `n` bytes from the source byte sequence `src` (indexed from 0)
    to memory at `p` (the `memcpy` of `yabe_write_data`). -/
def copyTo : Mem → Nat → (Nat → Nat) → Nat → Mem
  | m, _, _, 0 => m
  | m, p, src, n+1 => copyTo (writeByte m p (src 0)) (p+1) (fun i => src (i+1)) n

/-- `yabe_write_data`. -/
def yabe_write_data (m : Mem) (c : Cursor) (src : Nat → Nat) (size : Nat) :
    Nat × Mem × Cursor :=
  if c.len = 0 ∨ size = 0 then (0, m, c)
  else
    if c.len < size then
      (c.len, copyTo m c.pos src c.len, ⟨c.pos + c.len, 0⟩)
    else
      (size, copyTo m c.pos src size, ⟨c.pos + size, c.len - size⟩)

/-- The bytes of the constant `"YABE\0"`. -/
def yabeSig : Nat → Nat :=
  fun i => if i = 0 then 89 else if i = 1 then 65 else if i = 2 then 66
           else if i = 3 then 69 else 0

/-- `yabe_write_signature`. -/
def yabe_write_signature (m : Mem) (c : Cursor) : Nat × Mem × Cursor :=
  if c.len < 5 then (0, m, c) else yabe_write_data m c yabeSig 5

/-- Loop body of `yabe_read_none`, structural on the remaining length. -/
def read_none_aux (m : Mem) : Nat → Nat → Nat → Nat × Cursor
  | p, 0, count => (count, ⟨p, 0⟩)
  | p, len+1, count =>
    if toInt8 (m p) = yabe_none_tag then read_none_aux m (p+1) len (count+1)
    else (count, ⟨p, len+1⟩)

/-- `yabe_read_none`. -/
def yabe_read_none (m : Mem) (c : Cursor) : Nat × Cursor :=
  read_none_aux m c.pos c.len 0

/-- `yabe_read_null`. -/
def yabe_read_null (m : Mem) (c : Cursor) : Nat × Cursor :=
  yabe_skip_tag_if_is m c yabe_null_tag

/-- `yabe_read_blob`. -/
def yabe_read_blob (m : Mem) (c : Cursor) : Nat × Cursor :=
  yabe_skip_tag_if_is m c yabe_blob_tag

/-- `yabe_read_array_stream`. -/
def yabe_read_array_stream (m : Mem) (c : Cursor) : Nat × Cursor :=
  yabe_skip_tag_if_is m c yabe_arrays_tag

/-- `yabe_read_object_stream`. -/
def yabe_read_object_stream (m : Mem) (c : Cursor) : Nat × Cursor :=
  yabe_skip_tag_if_is m c yabe_objects_tag

/-- `yabe_read_end_stream` (yabe.h lines 871-872).  The source compares
    against `yabe_objects_tag`, not `yabe_ends_tag`; this is kept as
    written. -/
def yabe_read_end_stream (m : Mem) (c : Cursor) : Nat × Cursor :=
  yabe_skip_tag_if_is m c yabe_objects_tag

/-- `yabe_read_bool`.  On success the source stores through the out pointer
    and then calls `yabe_skip_tag` (which always returns 1). -/
def yabe_read_bool (m : Mem) (c : Cursor) (v0 : Bool) : Nat × Cursor × Bool :=
  if yabe_peek_tag m c = yabe_true_tag then (1, ⟨c.pos + 1, c.len - 1⟩, true)
  else if yabe_peek_tag m c = yabe_false_tag then (1, ⟨c.pos + 1, c.len - 1⟩, false)
  else (0, c, v0)

/-- `yabe_read_integer` (yabe.c lines 228-270). -/
def yabe_read_integer (m : Mem) (c : Cursor) (v0 : Int) : Nat × Cursor × Int :=
  if -32 ≤ yabe_peek_tag m c then
    (1, ⟨c.pos + 1, c.len - 1⟩, yabe_peek_tag m c)
  else if yabe_peek_tag m c = yabe_int16_tag then
    if c.len < 3 then (0, c, v0)
    else (3, ⟨c.pos + 3, c.len - 3⟩, toSigned (peekLE m (c.pos + 1) 2) (2 ^ 16))
  else if yabe_peek_tag m c = yabe_int32_tag then
    if c.len < 5 then (0, c, v0)
    else (5, ⟨c.pos + 5, c.len - 5⟩, toSigned (peekLE m (c.pos + 1) 4) (2 ^ 32))
  else if yabe_peek_tag m c = yabe_int64_tag then
    if c.len < 9 then (0, c, v0)
    else (9, ⟨c.pos + 9, c.len - 9⟩, toSigned (peekLE m (c.pos + 1) 8) (2 ^ 64))
  else (0, c, v0)

/-- The C `float` → `double` conversion on IEEE-754 bit patterns, used by
    the `flt32` branch of `yabe_read_float` (`*value = *((float*)cursor->ptr)`).
    Normal singles widen exactly; ±0 and ±Inf map to the corresponding double
    patterns; NaN keeps its payload shifted with the quiet bit set; subnormal
    singles are normalized to normal doubles. -/
def float32_to_double_bits (fr : Nat) : Nat :=
  if fr / 2 ^ 23 % 2 ^ 8 = 255 then
    if fr % 2 ^ 23 = 0 then fr / 2 ^ 31 % 2 * 2 ^ 63 + 2047 * 2 ^ 52
    else fr / 2 ^ 31 % 2 * 2 ^ 63 + 2047 * 2 ^ 52 + (fr % 2 ^ 23 * 2 ^ 29 ||| 2 ^ 51)
  else if fr / 2 ^ 23 % 2 ^ 8 = 0 then
    if fr % 2 ^ 23 = 0 then fr / 2 ^ 31 % 2 * 2 ^ 63
    else
      fr / 2 ^ 31 % 2 * 2 ^ 63 + (Nat.log2 (fr % 2 ^ 23) + 874) * 2 ^ 52
        + (fr % 2 ^ 23 * 2 ^ (52 - Nat.log2 (fr % 2 ^ 23))) % 2 ^ 52
  else
    fr / 2 ^ 31 % 2 * 2 ^ 63 + (fr / 2 ^ 23 % 2 ^ 8 + 896) * 2 ^ 52
      + fr % 2 ^ 23 * 2 ^ 29

/-- `yabe_read_float` (yabe.c lines 274-342), producing the bit pattern of
    the stored double.  In the `flt16` branch: `he = hr & 0x7C00` is
    `hr / 2^10 % 2^5 * 2^10`; `hr & 0x3FF` is `hr % 2^10`; `hr & 0x8000`
    is `hr / 2^15 % 2 = 1`; the reconstruction `(he>>10)-15+1023` is
    `he / 2^10 + 1008`, and the `|` assemblies combine disjoint fields. -/
def yabe_read_float (m : Mem) (c : Cursor) (v0 : Nat) : Nat × Cursor × Nat :=
  if yabe_peek_tag m c = yabe_flt0_tag then
    if c.len < 1 then (0, c, v0)
    else (1, ⟨c.pos + 1, c.len - 1⟩, 0)
  else if yabe_peek_tag m c = yabe_flt16_tag then
    if c.len < 3 then (0, c, v0)
    else
      (3, ⟨c.pos + 3, c.len - 3⟩,
        if peekLE m (c.pos + 1) 2 / 2 ^ 10 % 2 ^ 5 * 2 ^ 10 = 0x7C00 then
          if peekLE m (c.pos + 1) 2 % 2 ^ 10 ≠ 0 then 0x7FF4000000000000
          else if peekLE m (c.pos + 1) 2 / 2 ^ 15 % 2 = 1 then 0xFFF0000000000000
          else 0x7FF0000000000000
        else
          (peekLE m (c.pos + 1) 2 / 2 ^ 10 % 2 ^ 5 + 1008) * 2 ^ 52
            + (if peekLE m (c.pos + 1) 2 / 2 ^ 15 % 2 = 1 then 2 ^ 63 else 0)
            + peekLE m (c.pos + 1) 2 % 2 ^ 10 * 2 ^ 42)
  else if yabe_peek_tag m c = yabe_flt32_tag then
    if c.len < 5 then (0, c, v0)
    else (5, ⟨c.pos + 5, c.len - 5⟩, float32_to_double_bits (peekLE m (c.pos + 1) 4))
  else if yabe_peek_tag m c = yabe_flt64_tag then
    if c.len < 9 then (0, c, v0)
    else (9, ⟨c.pos + 9, c.len - 9⟩, peekLE m (c.pos + 1) 8)
  else (0, c, v0)

/-- `yabe_read_string` (yabe.c lines 345-392).  The str6 test is
    `(tag & ((int8_t)-64)) == yabe_str6_tag`; the stored length
    `tag & (int8_t)0x3F` is the low six bits of the tag byte. -/
def yabe_read_string (m : Mem) (c : Cursor) (v0 : Nat) : Nat × Cursor × Nat :=
  if int8_and (yabe_peek_tag m c) (-64) = yabe_str6_tag then
    if c.len < 1 then (0, c, v0)
    else (1, ⟨c.pos + 1, c.len - 1⟩, m c.pos % 256 % 64)
  else if yabe_peek_tag m c = yabe_str16_tag then
    if c.len < 3 then (0, c, v0)
    else (3, ⟨c.pos + 3, c.len - 3⟩, peekLE m (c.pos + 1) 2)
  else if yabe_peek_tag m c = yabe_str32_tag then
    if c.len < 5 then (0, c, v0)
    else (5, ⟨c.pos + 5, c.len - 5⟩, peekLE m (c.pos + 1) 4)
  else if yabe_peek_tag m c = yabe_str64_tag then
    if c.len < 9 then (0, c, v0)
    else (9, ⟨c.pos + 9, c.len - 9⟩, peekLE m (c.pos + 1) 8)
  else (0, c, v0)

/-- The bytes read by `yabe_read_data`. -/
def readBytes (m : Mem) : Nat → Nat → List Nat
  | _, 0 => []
  | p, n+1 => m p % 256 :: readBytes m (p+1) n

/-- `yabe_read_data`. -/
def yabe_read_data (m : Mem) (c : Cursor) (size : Nat) : Nat × Cursor × List Nat :=
  if c.len = 0 ∨ size = 0 then (0, c, [])
  else
    if c.len < size then
      (c.len, ⟨c.pos + c.len, 0⟩, readBytes m c.pos c.len)
    else
      (size, ⟨c.pos + size, c.len - size⟩, readBytes m c.pos size)

/-- `yabe_read_small_array` (yabe.h lines 790-797).  `tag & ~(uint8_t)7`
    promotes the mask to the `int` value `-8`, so the test is the signed
    masked comparison `int8_and tag (-8) = yabe_sarray_tag`; the count
    `tag & (uint8_t)7` is the low three bits of the tag byte. -/
def yabe_read_small_array (m : Mem) (c : Cursor) (n0 : Int) : Nat × Cursor × Int :=
  if int8_and (yabe_peek_tag m c) (-8) ≠ yabe_sarray_tag ∨
     yabe_peek_tag m c = yabe_arrays_tag then (0, c, n0)
  else (1, ⟨c.pos + 1, c.len - 1⟩, ((m c.pos % 256 % 8 : Nat) : Int))

/-- `yabe_read_small_object` (yabe.h lines 815-822).  Here the mask is
    `(uint8_t)(-8)`, which promotes to the `int` value `248`: the bitwise
    and of the tag with `248` is a non-negative `int`, which is then
    compared with the negative `yabe_sobject_tag` — the comparison can
    never succeed, again exactly as in the source. -/
def yabe_read_small_object (m : Mem) (c : Cursor) (n0 : Int) : Nat × Cursor × Int :=
  if (((m c.pos % 256) &&& 248 : Nat) : Int) ≠ yabe_sobject_tag ∨
     yabe_peek_tag m c = yabe_objects_tag then (0, c, n0)
  else (1, ⟨c.pos + 1, c.len - 1⟩, ((m c.pos % 256 % 8 : Nat) : Int))

/-- `yabe_read_signature` (yabe.h lines 885-898).  The source tests
    `cursor->len < 5 || !memcmp(cursor->ptr, "YABE", 4)`: `!memcmp` is true
    exactly when the four bytes DO match `"YABE"`, and this is kept as
    written. -/
def yabe_read_signature (m : Mem) (c : Cursor) : Nat × Cursor :=
  if c.len < 5 ∨ (m c.pos % 256 = 89 ∧ m (c.pos + 1) % 256 = 65 ∧
                  m (c.pos + 2) % 256 = 66 ∧ m (c.pos + 3) % 256 = 69) then
    (0, c)
  else if m (c.pos + 4) % 256 ≠ 0 then
    (4, ⟨c.pos + 4, c.len - 4⟩)
  else
    (5, ⟨c.pos + 5, c.len - 5⟩)

/-- All-zero memory, for concrete evaluations. -/
def mem0 : Mem := fun _ => 0

/-- The cursor discipline of the spec: the position advances by exactly the
    number of bytes consumed and the remaining count decreases by the same
    amount, so `pos + len` is invariant and `len` cannot wrap below zero. -/
def cursorOK (c c' : Cursor) : Prop :=
  c'.pos + c'.len = c.pos + c.len ∧ c.pos ≤ c'.pos

/-- The bit pattern the spec says a float round trip must return: the
    original pattern, except that −0.0 (pattern 2^63) comes back as +0.0
    (the flt0 tag encodes both zeros) and any NaN comes back as the
    canonical quiet NaN 0x7FF4000000000000. -/
def float_roundtrip_expected (dr : Nat) : Nat :=
  if dr = 2 ^ 63 then 0
  else if dr / 2 ^ 52 % 2 ^ 11 = 2047 ∧ dr % 2 ^ 52 ≠ 0 then 0x7FF4000000000000
  else dr

/-! ### Memory infrastructure lemmas -/

theorem writeByte_lt (m : Mem) (p v i : Nat) (h : i < p) : writeByte m p v i = m i := by
  simp [writeByte, Nat.ne_of_lt h]

theorem pokeLE_lt (m : Mem) (p n v i : Nat) (h : i < p) : pokeLE m p n v i = m i := by
  induction n generalizing m p v with
  | zero => rfl
  | succ n ih =>
    rw [pokeLE, ih _ _ _ (Nat.lt_succ_of_lt h)]
    exact writeByte_lt m p v i h

theorem peekLE_bound (m : Mem) (p n : Nat) : peekLE m p n < 256 ^ n := by
  induction n generalizing p with
  | zero => simp [peekLE]
  | succ n ih =>
    rw [peekLE, pow_succ]
    have h1 : m p % 256 < 256 := Nat.mod_lt _ (by omega)
    have h2 := ih (p + 1)
    omega

theorem peekLE_pokeLE (m : Mem) (p n v : Nat) :
    peekLE (pokeLE m p n v) p n = v % 256 ^ n := by
  induction n generalizing m p v with
  | zero => simp [peekLE, pokeLE, Nat.mod_one]
  | succ n ih =>
    rw [pokeLE, peekLE, pokeLE_lt _ _ _ _ _ (Nat.lt_succ_self p), ih]
    have hw : writeByte m p v p = v % 256 := by simp [writeByte]
    rw [hw, pow_succ, mul_comm (256 ^ n) 256, Nat.mod_mul]
    omega

/-- The tag byte poked at `p` is untouched by the payload pokes at `p + 1`
    and reads back as the original `int8_t` tag. -/
theorem peek_tag_after (m : Mem) (p : Nat) (t : Int) (k v : Nat)
    (h1 : -128 ≤ t) (h2 : t < 128) :
    toInt8 (pokeLE (poke_int8 m p t) (p + 1) k v p) = t := by
  rw [pokeLE_lt _ _ _ _ _ (Nat.lt_succ_self p)]
  simp only [poke_int8, writeByte, if_pos rfl, toInt8]
  split_ifs <;> omega

theorem peek_tag_poke (m : Mem) (p : Nat) (t : Int)
    (h1 : -128 ≤ t) (h2 : t < 128) :
    toInt8 (poke_int8 m p t p) = t := by
  simp only [poke_int8, writeByte, if_pos rfl, toInt8]
  split_ifs <;> omega

/-! ### Claim theorems -/

/-- C7: for every int64 value, writing it with yabe_write_integer into a
    sufficiently large buffer and reading back with yabe_read_integer yields
    the same value, and the byte count returned by the write equals the byte
    count returned by the read. -/
theorem integer_roundtrip (m : Mem) (c : Cursor) (val v0 : Int)
    (h1 : -(2 ^ 63) ≤ val) (h2 : val < 2 ^ 63) (hlen : 9 ≤ c.len) :
    (yabe_read_integer (yabe_write_integer m c val).2.1 c v0).2.2 = val ∧
    (yabe_read_integer (yabe_write_integer m c val).2.1 c v0).1 =
      (yabe_write_integer m c val).1 := by
  have hl0 : ¬ c.len = 0 := by omega
  have hl3 : ¬ c.len < 3 := by omega
  have hl5 : ¬ c.len < 5 := by omega
  have hl9 : ¬ c.len < 9 := by omega
  unfold yabe_write_integer
  split_ifs with hA hB hC
  · have hp := peek_tag_poke m c.pos val (by omega) (by omega)
    simp only [yabe_read_integer, yabe_peek_tag, hl0, if_false]
    rw [hp]
    simp [hA.1]
  · have hp := peek_tag_after m c.pos yabe_int16_tag 2 (val % 2 ^ 16).toNat
      (by norm_num [yabe_int16_tag]) (by norm_num [yabe_int16_tag])
    have hpk := peekLE_pokeLE (poke_int8 m c.pos yabe_int16_tag) (c.pos + 1) 2
      (val % 2 ^ 16).toNat
    simp only [yabe_read_integer, yabe_peek_tag]
    rw [hp, hpk]
    norm_num [yabe_int16_tag, yabe_int32_tag, yabe_int64_tag, hl3, toSigned]
    split_ifs <;> omega
  · have hp := peek_tag_after m c.pos yabe_int32_tag 4 (val % 2 ^ 32).toNat
      (by norm_num [yabe_int32_tag]) (by norm_num [yabe_int32_tag])
    have hpk := peekLE_pokeLE (poke_int8 m c.pos yabe_int32_tag) (c.pos + 1) 4
      (val % 2 ^ 32).toNat
    simp only [yabe_read_integer, yabe_peek_tag]
    rw [hp, hpk]
    norm_num [yabe_int16_tag, yabe_int32_tag, yabe_int64_tag, hl5, toSigned]
    split_ifs <;> omega
  · have hp := peek_tag_after m c.pos yabe_int64_tag 8 (val % 2 ^ 64).toNat
      (by norm_num [yabe_int64_tag]) (by norm_num [yabe_int64_tag])
    have hpk := peekLE_pokeLE (poke_int8 m c.pos yabe_int64_tag) (c.pos + 1) 8
      (val % 2 ^ 64).toNat
    simp only [yabe_read_integer, yabe_peek_tag]
    rw [hp, hpk]
    norm_num [yabe_int16_tag, yabe_int32_tag, yabe_int64_tag, hl9, toSigned]
    split_ifs <;> omega

/-- Witness for C7 at the concrete value 12345. -/
theorem integer_roundtrip_witness :
    -(2 ^ 63) ≤ (12345 : Int) ∧ (12345 : Int) < 2 ^ 63 ∧ 9 ≤ (9 : Nat) ∧
    ((yabe_read_integer (yabe_write_integer mem0 ⟨0, 9⟩ 12345).2.1 ⟨0, 9⟩ 0).2.2 = 12345 ∧
     (yabe_read_integer (yabe_write_integer mem0 ⟨0, 9⟩ 12345).2.1 ⟨0, 9⟩ 0).1 =
       (yabe_write_integer mem0 ⟨0, 9⟩ 12345).1) :=
  ⟨by norm_num, by norm_num, by norm_num,
   integer_roundtrip mem0 ⟨0, 9⟩ 12345 0 (by norm_num) (by norm_num) (by norm_num)⟩

set_option maxHeartbeats 1000000 in
/-- C8: given enough remaining bytes, yabe_write_integer picks the narrowest
    encoding: 1 byte (the value itself as tag byte) exactly for
    -32 ≤ v ≤ 127, 3 bytes (int16 tag 0xC1 + 2-byte LE two's-complement
    payload) exactly for the remaining -32768..32767, 5 bytes (tag 0xC2 +
    4-byte LE payload) exactly for the remaining int32 range, and 9 bytes
    (tag 0xC3 + 8-byte LE payload) otherwise. -/
theorem write_integer_width (m : Mem) (c : Cursor) (val : Int)
    (h1 : -(2 ^ 63) ≤ val) (h2 : val < 2 ^ 63) (hlen : 9 ≤ c.len) :
    ((yabe_write_integer m c val).1 = 1 ↔ -32 ≤ val ∧ val ≤ 127) ∧
    ((yabe_write_integer m c val).1 = 3 ↔
       ¬(-32 ≤ val ∧ val ≤ 127) ∧ -32768 ≤ val ∧ val ≤ 32767) ∧
    ((yabe_write_integer m c val).1 = 5 ↔
       ¬(-32768 ≤ val ∧ val ≤ 32767) ∧ -2147483648 ≤ val ∧ val ≤ 2147483647) ∧
    ((yabe_write_integer m c val).1 = 9 ↔
       ¬(-2147483648 ≤ val ∧ val ≤ 2147483647)) ∧
    (-32 ≤ val ∧ val ≤ 127 →
       (yabe_write_integer m c val).2.1 c.pos = (val % 256).toNat) ∧
    (¬(-32 ≤ val ∧ val ≤ 127) → -32768 ≤ val ∧ val ≤ 32767 →
       (yabe_write_integer m c val).2.1 c.pos = 0xC1 ∧
       peekLE (yabe_write_integer m c val).2.1 (c.pos + 1) 2 = (val % 2 ^ 16).toNat) ∧
    (¬(-32768 ≤ val ∧ val ≤ 32767) → -2147483648 ≤ val ∧ val ≤ 2147483647 →
       (yabe_write_integer m c val).2.1 c.pos = 0xC2 ∧
       peekLE (yabe_write_integer m c val).2.1 (c.pos + 1) 4 = (val % 2 ^ 32).toNat) ∧
    (¬(-2147483648 ≤ val ∧ val ≤ 2147483647) →
       (yabe_write_integer m c val).2.1 c.pos = 0xC3 ∧
       peekLE (yabe_write_integer m c val).2.1 (c.pos + 1) 8 = (val % 2 ^ 64).toNat) := by
  have hl0 : ¬ c.len = 0 := by omega
  have hl3 : ¬ c.len < 3 := by omega
  have hl5 : ¬ c.len < 5 := by omega
  have hl9 : ¬ c.len < 9 := by omega
  have tagb : ∀ (mm : Mem) (t : Int) (k v : Nat), -128 ≤ t → t < 0 →
      pokeLE (poke_int8 mm c.pos t) (c.pos + 1) k v c.pos = (t + 256).toNat := by
    intro mm t k v ha hb
    rw [pokeLE_lt _ _ _ _ _ (Nat.lt_succ_self c.pos)]
    simp [poke_int8, writeByte]
    omega
  unfold yabe_write_integer
  split_ifs with hA hB hC
  · refine ⟨by omega, by omega, by omega, by omega, ?_, ?_, ?_, ?_⟩
    · intro _
      show poke_int8 m c.pos val c.pos = (val % 256).toNat
      simp [poke_int8, writeByte]
      omega
    · exact fun h => (h hA).elim
    · intro h _; exact (h ⟨by omega, by omega⟩).elim
    · intro h; exact (h ⟨by omega, by omega⟩).elim
  · refine ⟨by omega, by omega, by omega, by omega, fun h => (hA h).elim, ?_, ?_, ?_⟩
    · intro _ _
      constructor
      · show pokeLE (poke_int8 m c.pos yabe_int16_tag) (c.pos + 1) 2
            (val % 2 ^ 16).toNat c.pos = 0xC1
        rw [tagb _ yabe_int16_tag _ _ (by norm_num [yabe_int16_tag])
          (by norm_num [yabe_int16_tag])]
        decide
      · rw [peekLE_pokeLE]
        omega
    · intro h _; exact (h hB).elim
    · intro h; exact (h ⟨by omega, by omega⟩).elim
  · refine ⟨by omega, by omega, by omega, by omega, fun h => (hA h).elim,
      fun _ h => (hB h).elim, ?_, ?_⟩
    · intro _ _
      constructor
      · show pokeLE (poke_int8 m c.pos yabe_int32_tag) (c.pos + 1) 4
            (val % 2 ^ 32).toNat c.pos = 0xC2
        rw [tagb _ yabe_int32_tag _ _ (by norm_num [yabe_int32_tag])
          (by norm_num [yabe_int32_tag])]
        decide
      · rw [peekLE_pokeLE]
        omega
    · intro h; exact (h hC).elim
  · refine ⟨by omega, by omega, by omega, by omega, fun h => (hA h).elim,
      fun _ h => (hB h).elim, fun _ h => (hC h).elim, ?_⟩
    intro _
    constructor
    · show pokeLE (poke_int8 m c.pos yabe_int64_tag) (c.pos + 1) 8
          (val % 2 ^ 64).toNat c.pos = 0xC3
      rw [tagb _ yabe_int64_tag _ _ (by norm_num [yabe_int64_tag])
        (by norm_num [yabe_int64_tag])]
      decide
    · rw [peekLE_pokeLE]
      omega

/-- Witness for C8 at the concrete value -33 (3-byte encoding). -/
theorem write_integer_width_witness :
    -(2 ^ 63) ≤ (-33 : Int) ∧ (-33 : Int) < 2 ^ 63 ∧ 9 ≤ (9 : Nat) ∧
    ((yabe_write_integer mem0 ⟨0, 9⟩ (-33)).1 = 3 ↔
       ¬(-32 ≤ (-33 : Int) ∧ (-33 : Int) ≤ 127) ∧
       -32768 ≤ (-33 : Int) ∧ (-33 : Int) ≤ 32767) :=
  ⟨by norm_num, by norm_num, by norm_num,
   (write_integer_width mem0 ⟨0, 9⟩ (-33) (by norm_num) (by norm_num)
      (by norm_num)).2.1⟩

/-- C1: the source violates the claim.  For a value in the packed range
    (-32..127) and a cursor with remaining == 0, yabe_write_integer returns
    1 — pretending one byte was written — instead of 0; nothing is written
    and the cursor is unchanged. -/
theorem write_integer_len0_returns_one :
    (yabe_write_integer mem0 ⟨0, 0⟩ 0).1 = 1 ∧
    (yabe_write_integer mem0 ⟨0, 0⟩ 0).2.2 = ⟨0, 0⟩ := by
  constructor <;> rfl

/-- C2: the source violates the claim.  For 2^16 ≤ len < 2^32 with enough
    room, the emitted tag byte is 0xCD (the str16 tag), not the claimed
    str32 tag 0xCE; for len ≥ 2^32 it is again 0xCD, not the str64 tag
    0xCF.  The lengths are nevertheless written as 4- and 8-byte LE. -/
theorem write_string_wide_tag_eval :
    (yabe_write_string mem0 ⟨0, 9⟩ 65536).1 = 5 ∧
    (yabe_write_string mem0 ⟨0, 9⟩ 65536).2.1 0 = 0xCD ∧
    (yabe_write_string mem0 ⟨0, 9⟩ (2 ^ 32)).1 = 9 ∧
    (yabe_write_string mem0 ⟨0, 9⟩ (2 ^ 32)).2.1 0 = 0xCD := by
  decide

/-- C3: the string round trip fails at n = 65536: yabe_write_string emits
    the str16 tag byte followed by a 4-byte LE length, and yabe_read_string
    on that buffer takes the str16 branch and decodes a 2-byte length of 0
    (advancing 3 of the 5 written bytes), not 65536. -/
theorem string_roundtrip_fails_at_65536 :
    (yabe_write_string mem0 ⟨0, 100⟩ 65536).1 = 5 ∧
    (yabe_read_string (yabe_write_string mem0 ⟨0, 100⟩ 65536).2.1 ⟨0, 100⟩ 7).1 = 3 ∧
    (yabe_read_string (yabe_write_string mem0 ⟨0, 100⟩ 65536).2.1 ⟨0, 100⟩ 7).2.2 = 0 := by
  decide

/-- C4: the source violates the claim.  The memcmp polarity in
    yabe_read_signature is inverted: on the buffer produced by
    yabe_write_signature (bytes 59 41 42 45 00) it returns 0, while on a
    buffer whose first four bytes do NOT spell "YABE" (five zero bytes) it
    returns 5. -/
theorem read_signature_inverted_eval :
    (yabe_write_signature mem0 ⟨0, 5⟩).1 = 5 ∧
    (yabe_write_signature mem0 ⟨0, 5⟩).2.1 0 = 0x59 ∧
    (yabe_write_signature mem0 ⟨0, 5⟩).2.1 1 = 0x41 ∧
    (yabe_write_signature mem0 ⟨0, 5⟩).2.1 2 = 0x42 ∧
    (yabe_write_signature mem0 ⟨0, 5⟩).2.1 3 = 0x45 ∧
    (yabe_write_signature mem0 ⟨0, 5⟩).2.1 4 = 0 ∧
    (yabe_read_signature (yabe_write_signature mem0 ⟨0, 5⟩).2.1 ⟨0, 5⟩).1 = 0 ∧
    (yabe_read_signature mem0 ⟨0, 5⟩).1 = 5 := by
  decide

/-- C5: the source violates the claim twice over.  yabe_read_end_stream
    compares against yabe_objects_tag (0xDF) instead of the ends tag 0xCB,
    and the comparison itself — the uint8_t result of yabe_peek_tag against
    an int8_t tag inside yabe_skip_tag_if_is — never succeeds after integer
    promotion.  So it returns 0 with the cursor unchanged on every byte:
    on the ends tag 0xCB written by yabe_write_end_stream (where the claim
    requires 1 and an advance of one byte) and on 0xDF alike. -/
theorem read_end_stream_wrong_tag_eval :
    (yabe_write_end_stream mem0 ⟨0, 1⟩).1 = 1 ∧
    (yabe_write_end_stream mem0 ⟨0, 1⟩).2.1 0 = 0xCB ∧
    (yabe_read_end_stream (yabe_write_end_stream mem0 ⟨0, 1⟩).2.1 ⟨0, 1⟩).1 = 0 ∧
    (yabe_read_end_stream (yabe_write_end_stream mem0 ⟨0, 1⟩).2.1 ⟨0, 1⟩).2 = ⟨0, 1⟩ ∧
    (yabe_read_end_stream (yabe_write_object_stream mem0 ⟨0, 1⟩).2.1 ⟨0, 1⟩).1 = 0 ∧
    (yabe_read_end_stream (yabe_write_object_stream mem0 ⟨0, 1⟩).2.1 ⟨0, 1⟩).2 = ⟨0, 1⟩ := by
  decide

theorem cursorOK_rfl (c : Cursor) : cursorOK c c := ⟨rfl, le_refl _⟩

theorem cursorOK_adv (c : Cursor) (k : Nat) (h : k ≤ c.len) :
    cursorOK c ⟨c.pos + k, c.len - k⟩ := by
  unfold cursorOK
  constructor
  · show c.pos + k + (c.len - k) = c.pos + c.len
    omega
  · show c.pos ≤ c.pos + k
    omega

theorem write_tag_cursorOK (m : Mem) (c : Cursor) (t : Int) :
    cursorOK c (yabe_write_tag m c t).2.2 := by
  unfold yabe_write_tag
  split_ifs with h
  · exact cursorOK_rfl c
  · exact cursorOK_adv c 1 (by omega)

theorem write_small_array_cursorOK (m : Mem) (c : Cursor) (nbr : Nat) :
    cursorOK c (yabe_write_small_array m c nbr).2.2 := by
  unfold yabe_write_small_array
  split_ifs
  · exact cursorOK_rfl c
  · exact write_tag_cursorOK m c _

theorem write_small_object_cursorOK (m : Mem) (c : Cursor) (nbr : Nat) :
    cursorOK c (yabe_write_small_object m c nbr).2.2 := by
  unfold yabe_write_small_object
  split_ifs
  · exact cursorOK_rfl c
  · exact write_tag_cursorOK m c _

theorem write_integer_cursorOK (m : Mem) (c : Cursor) (val : Int) :
    cursorOK c (yabe_write_integer m c val).2.2 := by
  unfold yabe_write_integer
  split_ifs <;>
    first
      | exact cursorOK_rfl c
      | exact cursorOK_adv c 1 (by omega)
      | exact cursorOK_adv c 3 (by omega)
      | exact cursorOK_adv c 5 (by omega)
      | exact cursorOK_adv c 9 (by omega)

theorem write_float_cursorOK (m : Mem) (c : Cursor) (dr : Nat) :
    cursorOK c (yabe_write_float m c dr).2.2 := by
  unfold yabe_write_float
  split_ifs <;>
    first
      | exact cursorOK_rfl c
      | exact cursorOK_adv c 1 (by omega)
      | exact cursorOK_adv c 3 (by omega)
      | exact cursorOK_adv c 5 (by omega)
      | exact cursorOK_adv c 9 (by omega)

theorem write_string_cursorOK (m : Mem) (c : Cursor) (n : Nat) :
    cursorOK c (yabe_write_string m c n).2.2 := by
  unfold yabe_write_string
  split_ifs <;>
    first
      | exact cursorOK_rfl c
      | exact cursorOK_adv c 1 (by omega)
      | exact cursorOK_adv c 3 (by omega)
      | exact cursorOK_adv c 5 (by omega)
      | exact cursorOK_adv c 9 (by omega)

theorem write_data_cursorOK (m : Mem) (c : Cursor) (src : Nat → Nat) (size : Nat) :
    cursorOK c (yabe_write_data m c src size).2.2 := by
  unfold yabe_write_data
  split_ifs with h1 h2
  · exact cursorOK_rfl c
  · refine ⟨?_, ?_⟩
    · show c.pos + c.len + 0 = c.pos + c.len
      omega
    · show c.pos ≤ c.pos + c.len
      omega
  · exact cursorOK_adv c size (by omega)

theorem write_signature_cursorOK (m : Mem) (c : Cursor) :
    cursorOK c (yabe_write_signature m c).2.2 := by
  unfold yabe_write_signature
  split_ifs
  · exact cursorOK_rfl c
  · exact write_data_cursorOK m c yabeSig 5

theorem skip_if_cursorOK (m : Mem) (c : Cursor) (t : Int) (h : 1 ≤ c.len) :
    cursorOK c (yabe_skip_tag_if_is m c t).2 := by
  unfold yabe_skip_tag_if_is yabe_skip_tag
  split_ifs
  · exact cursorOK_adv c 1 h
  · exact cursorOK_rfl c

theorem read_none_aux_cursorOK (m : Mem) (p len count : Nat) :
    (read_none_aux m p len count).2.pos + (read_none_aux m p len count).2.len
        = p + len ∧
    p ≤ (read_none_aux m p len count).2.pos := by
  induction len generalizing p count with
  | zero => simp [read_none_aux]
  | succ n ih =>
    simp only [read_none_aux]
    split_ifs with h
    · have := ih (p + 1) (count + 1)
      omega
    · simp

theorem read_none_cursorOK (m : Mem) (c : Cursor) :
    cursorOK c (yabe_read_none m c).2 :=
  read_none_aux_cursorOK m c.pos c.len 0

theorem read_bool_cursorOK (m : Mem) (c : Cursor) (v0 : Bool) (h : 1 ≤ c.len) :
    cursorOK c (yabe_read_bool m c v0).2.1 := by
  unfold yabe_read_bool
  split_ifs <;>
    first
      | exact cursorOK_rfl c
      | exact cursorOK_adv c 1 h

theorem read_integer_cursorOK (m : Mem) (c : Cursor) (v0 : Int) (h : 1 ≤ c.len) :
    cursorOK c (yabe_read_integer m c v0).2.1 := by
  unfold yabe_read_integer
  split_ifs <;>
    first
      | exact cursorOK_rfl c
      | exact cursorOK_adv c 1 h
      | exact cursorOK_adv c 3 (by omega)
      | exact cursorOK_adv c 5 (by omega)
      | exact cursorOK_adv c 9 (by omega)

theorem read_float_cursorOK (m : Mem) (c : Cursor) (v0 : Nat) (h : 1 ≤ c.len) :
    cursorOK c (yabe_read_float m c v0).2.1 := by
  unfold yabe_read_float
  split_ifs <;>
    first
      | exact cursorOK_rfl c
      | exact cursorOK_adv c 1 h
      | exact cursorOK_adv c 3 (by omega)
      | exact cursorOK_adv c 5 (by omega)
      | exact cursorOK_adv c 9 (by omega)

theorem read_string_cursorOK (m : Mem) (c : Cursor) (v0 : Nat) (h : 1 ≤ c.len) :
    cursorOK c (yabe_read_string m c v0).2.1 := by
  unfold yabe_read_string
  split_ifs <;>
    first
      | exact cursorOK_rfl c
      | exact cursorOK_adv c 1 h
      | exact cursorOK_adv c 3 (by omega)
      | exact cursorOK_adv c 5 (by omega)
      | exact cursorOK_adv c 9 (by omega)

theorem read_data_cursorOK (m : Mem) (c : Cursor) (size : Nat) :
    cursorOK c (yabe_read_data m c size).2.1 := by
  unfold yabe_read_data
  split_ifs with h1 h2
  · exact cursorOK_rfl c
  · refine ⟨?_, ?_⟩
    · show c.pos + c.len + 0 = c.pos + c.len
      omega
    · show c.pos ≤ c.pos + c.len
      omega
  · exact cursorOK_adv c size (by omega)

theorem read_small_array_cursorOK (m : Mem) (c : Cursor) (n0 : Int) (h : 1 ≤ c.len) :
    cursorOK c (yabe_read_small_array m c n0).2.1 := by
  unfold yabe_read_small_array
  split_ifs
  · exact cursorOK_rfl c
  · exact cursorOK_adv c 1 h

theorem read_small_object_cursorOK (m : Mem) (c : Cursor) (n0 : Int) (h : 1 ≤ c.len) :
    cursorOK c (yabe_read_small_object m c n0).2.1 := by
  unfold yabe_read_small_object
  split_ifs
  · exact cursorOK_rfl c
  · exact cursorOK_adv c 1 h

theorem read_signature_cursorOK (m : Mem) (c : Cursor) :
    cursorOK c (yabe_read_signature m c).2 := by
  unfold yabe_read_signature
  split_ifs with h1 h2
  · exact cursorOK_rfl c
  · exact cursorOK_adv c 4 (by omega)
  · exact cursorOK_adv c 5 (by omega)

/-- C9: for every operation of the public API (readers under their
    documented precondition that the cursor is not at the end of buffer),
    the position advances by exactly the number of bytes consumed and the
    remaining count decreases by the same amount — `pos + len` is invariant
    across each call and `len` never wraps below zero. -/
theorem api_cursor_invariant (m : Mem) (c : Cursor) (b : Bool) (vi : Int)
    (dr sl sz nbr : Nat) (src : Nat → Nat) (i0 : Int) (f0 s0 : Nat)
    (a0 o0 : Int) (b0 : Bool) :
    cursorOK c (yabe_write_none m c).2.2 ∧
    cursorOK c (yabe_write_null m c).2.2 ∧
    cursorOK c (yabe_write_bool m c b).2.2 ∧
    cursorOK c (yabe_write_integer m c vi).2.2 ∧
    cursorOK c (yabe_write_float m c dr).2.2 ∧
    cursorOK c (yabe_write_string m c sl).2.2 ∧
    cursorOK c (yabe_write_data m c src sz).2.2 ∧
    cursorOK c (yabe_write_blob m c).2.2 ∧
    cursorOK c (yabe_write_small_array m c nbr).2.2 ∧
    cursorOK c (yabe_write_array_stream m c).2.2 ∧
    cursorOK c (yabe_write_small_object m c nbr).2.2 ∧
    cursorOK c (yabe_write_object_stream m c).2.2 ∧
    cursorOK c (yabe_write_end_stream m c).2.2 ∧
    cursorOK c (yabe_write_signature m c).2.2 ∧
    cursorOK c (yabe_read_none m c).2 ∧
    (1 ≤ c.len → cursorOK c (yabe_read_null m c).2) ∧
    (1 ≤ c.len → cursorOK c (yabe_read_bool m c b0).2.1) ∧
    (1 ≤ c.len → cursorOK c (yabe_read_integer m c i0).2.1) ∧
    (1 ≤ c.len → cursorOK c (yabe_read_float m c f0).2.1) ∧
    (1 ≤ c.len → cursorOK c (yabe_read_string m c s0).2.1) ∧
    cursorOK c (yabe_read_data m c sz).2.1 ∧
    (1 ≤ c.len → cursorOK c (yabe_read_blob m c).2) ∧
    (1 ≤ c.len → cursorOK c (yabe_read_small_array m c a0).2.1) ∧
    (1 ≤ c.len → cursorOK c (yabe_read_small_object m c o0).2.1) ∧
    (1 ≤ c.len → cursorOK c (yabe_read_array_stream m c).2) ∧
    (1 ≤ c.len → cursorOK c (yabe_read_object_stream m c).2) ∧
    (1 ≤ c.len → cursorOK c (yabe_read_end_stream m c).2) ∧
    cursorOK c (yabe_read_signature m c).2 :=
  ⟨write_tag_cursorOK m c yabe_none_tag,
   write_tag_cursorOK m c yabe_null_tag,
   write_tag_cursorOK m c (if b then yabe_true_tag else yabe_false_tag),
   write_integer_cursorOK m c vi,
   write_float_cursorOK m c dr,
   write_string_cursorOK m c sl,
   write_data_cursorOK m c src sz,
   write_tag_cursorOK m c yabe_blob_tag,
   write_small_array_cursorOK m c nbr,
   write_tag_cursorOK m c yabe_arrays_tag,
   write_small_object_cursorOK m c nbr,
   write_tag_cursorOK m c yabe_objects_tag,
   write_tag_cursorOK m c yabe_ends_tag,
   write_signature_cursorOK m c,
   read_none_cursorOK m c,
   fun h => skip_if_cursorOK m c yabe_null_tag h,
   fun h => read_bool_cursorOK m c b0 h,
   fun h => read_integer_cursorOK m c i0 h,
   fun h => read_float_cursorOK m c f0 h,
   fun h => read_string_cursorOK m c s0 h,
   read_data_cursorOK m c sz,
   fun h => skip_if_cursorOK m c yabe_blob_tag h,
   fun h => read_small_array_cursorOK m c a0 h,
   fun h => read_small_object_cursorOK m c o0 h,
   fun h => skip_if_cursorOK m c yabe_arrays_tag h,
   fun h => skip_if_cursorOK m c yabe_objects_tag h,
   fun h => skip_if_cursorOK m c yabe_objects_tag h,
   read_signature_cursorOK m c⟩

/-- Witness for C9 at a concrete cursor with 1 remaining byte. -/
theorem api_cursor_invariant_witness :
    1 ≤ (1 : Nat) ∧
    (cursorOK ⟨0, 1⟩ (yabe_write_none mem0 ⟨0, 1⟩).2.2 ∧
     cursorOK ⟨0, 1⟩ (yabe_read_none mem0 ⟨0, 1⟩).2 ∧
     (1 ≤ (Cursor.mk 0 1).len → cursorOK ⟨0, 1⟩ (yabe_read_integer mem0 ⟨0, 1⟩ 0).2.1)) :=
  ⟨by norm_num,
   (api_cursor_invariant mem0 ⟨0, 1⟩ true 0 0 0 0 0 yabeSig 0 0 0 0 0 true).1,
   (api_cursor_invariant mem0 ⟨0, 1⟩ true 0 0 0 0 0 yabeSig 0 0 0 0 0 true).2.2.2.2.2.2.2.2.2.2.2.2.2.2.1,
   fun h => ((api_cursor_invariant mem0 ⟨0, 1⟩ true 0 0 0 0 0 yabeSig 0 0 0 0 0
     true).2.2.2.2.2.2.2.2.2.2.2.2.2.2.2.2.2.1) h⟩

/-- C10: every reader with an out parameter leaves the out location
    unchanged whenever it returns 0 (kind mismatch or truncation), under
    the reader precondition that the cursor is not at the end of buffer. -/
theorem readers_preserve_output (m : Mem) (c : Cursor) (hlen : 1 ≤ c.len)
    (b0 : Bool) (i0 : Int) (f0 s0 : Nat) (a0 o0 : Int) :
    ((yabe_read_bool m c b0).1 = 0 → (yabe_read_bool m c b0).2.2 = b0) ∧
    ((yabe_read_integer m c i0).1 = 0 → (yabe_read_integer m c i0).2.2 = i0) ∧
    ((yabe_read_float m c f0).1 = 0 → (yabe_read_float m c f0).2.2 = f0) ∧
    ((yabe_read_string m c s0).1 = 0 → (yabe_read_string m c s0).2.2 = s0) ∧
    ((yabe_read_small_array m c a0).1 = 0 → (yabe_read_small_array m c a0).2.2 = a0) ∧
    ((yabe_read_small_object m c o0).1 = 0 → (yabe_read_small_object m c o0).2.2 = o0) := by
  refine ⟨?_, ?_, ?_, ?_, ?_, ?_⟩
  · unfold yabe_read_bool
    split_ifs <;> intro h <;> simp at h ⊢
  · unfold yabe_read_integer
    split_ifs <;> intro h <;> simp at h ⊢
  · unfold yabe_read_float
    split_ifs <;> intro h <;> simp at h ⊢
  · unfold yabe_read_string
    split_ifs <;> intro h <;> simp at h ⊢
  · unfold yabe_read_small_array
    split_ifs <;> intro h <;> simp at h ⊢
  · unfold yabe_read_small_object
    split_ifs <;> intro h <;> simp at h ⊢

/-- Witness for C10 on an all-zero one-byte buffer (every reader returns 0
    there, since byte 0 is the packed integer 0, not a bool/float/string
    or container tag — except read_integer, whose hypothesis holds
    vacuously false-free: its return is 1 and the implication holds). -/
theorem readers_preserve_output_witness :
    1 ≤ (Cursor.mk 0 1).len ∧
    (((yabe_read_bool mem0 ⟨0, 1⟩ true).1 = 0 →
        (yabe_read_bool mem0 ⟨0, 1⟩ true).2.2 = true) ∧
     ((yabe_read_integer mem0 ⟨0, 1⟩ 7).1 = 0 →
        (yabe_read_integer mem0 ⟨0, 1⟩ 7).2.2 = 7) ∧
     ((yabe_read_float mem0 ⟨0, 1⟩ 7).1 = 0 →
        (yabe_read_float mem0 ⟨0, 1⟩ 7).2.2 = 7) ∧
     ((yabe_read_string mem0 ⟨0, 1⟩ 7).1 = 0 →
        (yabe_read_string mem0 ⟨0, 1⟩ 7).2.2 = 7) ∧
     ((yabe_read_small_array mem0 ⟨0, 1⟩ 7).1 = 0 →
        (yabe_read_small_array mem0 ⟨0, 1⟩ 7).2.2 = 7) ∧
     ((yabe_read_small_object mem0 ⟨0, 1⟩ 7).1 = 0 →
        (yabe_read_small_object mem0 ⟨0, 1⟩ 7).2.2 = 7)) :=
  ⟨by norm_num,
   readers_preserve_output mem0 ⟨0, 1⟩ (by norm_num) true 7 7 7 7 7⟩

set_option maxHeartbeats 1600000 in
/-- C6: for every double bit pattern that is normal, a zero, or an
    infinity (and also for NaN), writing with yabe_write_float into a
    sufficiently large buffer and reading back with yabe_read_float yields
    a bit-equal double, except that −0.0 returns as +0.0 and NaN returns
    the canonical quiet NaN 0x7FF4000000000000; the byte counts agree. -/
theorem float_roundtrip (m : Mem) (c : Cursor) (dr v0 : Nat)
    (hdr : dr < 2 ^ 64) (hlen : 9 ≤ c.len)
    (hclass : (0 < dr / 2 ^ 52 % 2 ^ 11 ∧ dr / 2 ^ 52 % 2 ^ 11 < 2047) ∨
              dr = 0 ∨ dr = 2 ^ 63 ∨
              dr = 0x7FF0000000000000 ∨ dr = 0xFFF0000000000000 ∨
              (dr / 2 ^ 52 % 2 ^ 11 = 2047 ∧ dr % 2 ^ 52 ≠ 0)) :
    (yabe_read_float (yabe_write_float m c dr).2.1 c v0).1 =
      (yabe_write_float m c dr).1 ∧
    (yabe_read_float (yabe_write_float m c dr).2.1 c v0).2.2 =
      float_roundtrip_expected dr := by
  have hl1 : ¬ c.len < 1 := by omega
  have hl3 : ¬ c.len < 3 := by omega
  have hl5 : ¬ c.len < 5 := by omega
  have hl9 : ¬ c.len < 9 := by omega
  unfold yabe_write_float
  split_ifs
  · -- flt0: dr is +0 or −0
    have hp := peek_tag_poke m c.pos yabe_flt0_tag (by norm_num [yabe_flt0_tag])
      (by norm_num [yabe_flt0_tag])
    simp only [yabe_read_float, yabe_peek_tag]
    rw [hp]
    norm_num [yabe_flt0_tag, hl1]
    have h2 : dr = 0 ∨ dr = 2 ^ 63 := by omega
    rcases h2 with h2 | h2 <;> subst h2 <;> norm_num [float_roundtrip_expected]
  · -- flt16, NaN payload 0x7D00
    have hp := peek_tag_after m c.pos yabe_flt16_tag 2 0x7D00
      (by norm_num [yabe_flt16_tag]) (by norm_num [yabe_flt16_tag])
    simp only [yabe_read_float, yabe_peek_tag]
    rw [hp, peekLE_pokeLE]
    norm_num [yabe_flt0_tag, yabe_flt16_tag, hl3]
    unfold float_roundtrip_expected
    rw [if_neg (by omega : ¬ dr = 2 ^ 63),
        if_pos (by omega : dr / 2 ^ 52 % 2 ^ 11 = 2047 ∧ dr % 2 ^ 52 ≠ 0)]
  · -- flt16, −infinity 0xFC00
    have hp := peek_tag_after m c.pos yabe_flt16_tag 2 0xFC00
      (by norm_num [yabe_flt16_tag]) (by norm_num [yabe_flt16_tag])
    simp only [yabe_read_float, yabe_peek_tag]
    rw [hp, peekLE_pokeLE]
    norm_num [yabe_flt0_tag, yabe_flt16_tag, hl3]
    have h2 : dr = 0xFFF0000000000000 := by omega
    subst h2
    norm_num [float_roundtrip_expected]
  · -- flt16, +infinity 0x7C00
    have hp := peek_tag_after m c.pos yabe_flt16_tag 2 0x7C00
      (by norm_num [yabe_flt16_tag]) (by norm_num [yabe_flt16_tag])
    simp only [yabe_read_float, yabe_peek_tag]
    rw [hp, peekLE_pokeLE]
    norm_num [yabe_flt0_tag, yabe_flt16_tag, hl3]
    have h2 : dr = 0x7FF0000000000000 := by omega
    subst h2
    norm_num [float_roundtrip_expected]
  · -- flt16 normal, negative sign
    have hp := peek_tag_after m c.pos yabe_flt16_tag 2
      ((((dr / 2 ^ 52 % 2 ^ 11 : Nat) : Int) - 1023 + 15).toNat * 2 ^ 10
        + 2 ^ 15 + dr / 2 ^ 42 % 2 ^ 10)
      (by norm_num [yabe_flt16_tag]) (by norm_num [yabe_flt16_tag])
    simp only [yabe_read_float, yabe_peek_tag]
    rw [hp, peekLE_pokeLE]
    norm_num [yabe_flt0_tag, yabe_flt16_tag, hl3]
    unfold float_roundtrip_expected
    rw [if_neg (by omega : ¬ dr = 2 ^ 63),
        if_neg (by omega : ¬ (dr / 2 ^ 52 % 2 ^ 11 = 2047 ∧ dr % 2 ^ 52 ≠ 0)),
        if_neg (by omega), if_pos (by omega)]
    omega
  · -- flt16 normal, positive sign
    have hp := peek_tag_after m c.pos yabe_flt16_tag 2
      ((((dr / 2 ^ 52 % 2 ^ 11 : Nat) : Int) - 1023 + 15).toNat * 2 ^ 10
        + 0 + dr / 2 ^ 42 % 2 ^ 10)
      (by norm_num [yabe_flt16_tag]) (by norm_num [yabe_flt16_tag])
    simp only [yabe_read_float, yabe_peek_tag]
    rw [hp, peekLE_pokeLE]
    norm_num [yabe_flt0_tag, yabe_flt16_tag, hl3]
    unfold float_roundtrip_expected
    rw [if_neg (by omega : ¬ dr = 2 ^ 63),
        if_neg (by omega : ¬ (dr / 2 ^ 52 % 2 ^ 11 = 2047 ∧ dr % 2 ^ 52 ≠ 0)),
        if_neg (by omega), if_neg (by omega)]
    omega
  · -- flt32 normal, negative sign
    have hp := peek_tag_after m c.pos yabe_flt32_tag 4
      ((((dr / 2 ^ 52 % 2 ^ 11 : Nat) : Int) - 1023 + 127).toNat * 2 ^ 23
        + 2 ^ 31 + dr / 2 ^ 29 % 2 ^ 23)
      (by norm_num [yabe_flt32_tag]) (by norm_num [yabe_flt32_tag])
    simp only [yabe_read_float, yabe_peek_tag]
    rw [hp, peekLE_pokeLE]
    norm_num [yabe_flt0_tag, yabe_flt16_tag, yabe_flt32_tag, hl5]
    unfold float_roundtrip_expected float32_to_double_bits
    rw [if_neg (by omega : ¬ dr = 2 ^ 63),
        if_neg (by omega : ¬ (dr / 2 ^ 52 % 2 ^ 11 = 2047 ∧ dr % 2 ^ 52 ≠ 0)),
        if_neg (by omega), if_neg (by omega)]
    omega
  · -- flt32 normal, positive sign
    have hp := peek_tag_after m c.pos yabe_flt32_tag 4
      ((((dr / 2 ^ 52 % 2 ^ 11 : Nat) : Int) - 1023 + 127).toNat * 2 ^ 23
        + 0 + dr / 2 ^ 29 % 2 ^ 23)
      (by norm_num [yabe_flt32_tag]) (by norm_num [yabe_flt32_tag])
    simp only [yabe_read_float, yabe_peek_tag]
    rw [hp, peekLE_pokeLE]
    norm_num [yabe_flt0_tag, yabe_flt16_tag, yabe_flt32_tag, hl5]
    unfold float_roundtrip_expected float32_to_double_bits
    rw [if_neg (by omega : ¬ dr = 2 ^ 63),
        if_neg (by omega : ¬ (dr / 2 ^ 52 % 2 ^ 11 = 2047 ∧ dr % 2 ^ 52 ≠ 0)),
        if_neg (by omega), if_neg (by omega)]
    omega
  · -- flt64
    have hp := peek_tag_after m c.pos yabe_flt64_tag 8 dr
      (by norm_num [yabe_flt64_tag]) (by norm_num [yabe_flt64_tag])
    simp only [yabe_read_float, yabe_peek_tag]
    rw [hp, peekLE_pokeLE]
    norm_num [yabe_flt0_tag, yabe_flt16_tag, yabe_flt32_tag, yabe_flt64_tag, hl9]
    unfold float_roundtrip_expected
    rw [if_neg (by omega : ¬ dr = 2 ^ 63),
        if_neg (by omega : ¬ (dr / 2 ^ 52 % 2 ^ 11 = 2047 ∧ dr % 2 ^ 52 ≠ 0))]
    omega

/-- Witness for C6 at the pattern of 4.5 (0x4012000000000000, a normal
    double narrowed to flt16). -/
theorem float_roundtrip_witness :
    (0x4012000000000000 : Nat) < 2 ^ 64 ∧ 9 ≤ (9 : Nat) ∧
    ((0 < 0x4012000000000000 / 2 ^ 52 % 2 ^ 11 ∧
      0x4012000000000000 / 2 ^ 52 % 2 ^ 11 < 2047) ∨
     (0x4012000000000000 : Nat) = 0 ∨ (0x4012000000000000 : Nat) = 2 ^ 63 ∨
     (0x4012000000000000 : Nat) = 0x7FF0000000000000 ∨
     (0x4012000000000000 : Nat) = 0xFFF0000000000000 ∨
     (0x4012000000000000 / 2 ^ 52 % 2 ^ 11 = 2047 ∧
      0x4012000000000000 % 2 ^ 52 ≠ 0)) ∧
    ((yabe_read_float (yabe_write_float mem0 ⟨0, 9⟩ 0x4012000000000000).2.1
        ⟨0, 9⟩ 7).1 = (yabe_write_float mem0 ⟨0, 9⟩ 0x4012000000000000).1 ∧
     (yabe_read_float (yabe_write_float mem0 ⟨0, 9⟩ 0x4012000000000000).2.1
        ⟨0, 9⟩ 7).2.2 = float_roundtrip_expected 0x4012000000000000) :=
  ⟨by norm_num, by norm_num, by decide,
   float_roundtrip mem0 ⟨0, 9⟩ 0x4012000000000000 7 (by norm_num) (by norm_num)
     (by decide)⟩

end Yabe
